import Mathlib

/-!
Verification of the CWrap library (header-only C++ wrappers for C-style APIs).

Shallow embedding of the two facilities:

* the Checked Call mechanism of src/include/checkcall.hpp (namespace cwrap):
  policies, CALL_CHECKED, CallGuard, CallCheckContext; and the legacy variant
  of src/include/checkcall.h (namespace cwrap::error);
* the resource Guard exercised by src/tests/guard_test.cpp.  Its header is not
  part of the sources at hand, so the Guard operations are modelled from the
  spec, as marked on each definition.

Ambient process state (errno) is threaded explicitly; exceptions are modelled
with Except; observable actions (pre-call hook, callable invocation, error
handler invocation, cleanup invocation) are recorded in traces so that the
"exactly once" and ordering clauses of the spec can be stated.
-/

namespace CWrap

/-- A C++ exception: std::bad_function_call or a std::runtime_error message. -/
inductive CppError where
  | badFunctionCall
  | runtimeError (msg : String)
  deriving DecidableEq, Repr

/-- The ambient process-wide state the library touches: the errno indicator. -/
structure ProcState where
  errno : Int
  deriving DecidableEq, Repr

/-- Model of the C library strerror lookup: an injective rendering of the code. -/
def strerror (e : Int) : String := "strerror " ++ toString e

/-- Observable actions of one checked-call invocation. -/
inductive Event (Rv : Type) where
  | preCallRun
  | callableRun
  | handlerRun (rv : Rv)
  deriving DecidableEq, Repr

/-- True exactly on the pre-call-hook event. -/
def Event.isPreCallRun : Event Rv → Bool
  | .preCallRun => true
  | _ => false

/-- True exactly on an error-handler invocation event. -/
def Event.isHandlerRun : Event Rv → Bool
  | .handlerRun _ => true
  | _ => false

/-- A Return-Check Policy (checkcall.hpp): a returnValueIsOk predicate, which
may consult ambient state (IsErrnoZeroReturnCheckPolicy reads errno), and an
optional preCall hook; preCall = none models the absence of a preCall member,
which HasPreCall detects. -/
structure ReturnCheckPolicy (Rv : Type) where
  returnValueIsOk : ProcState → Rv → Bool
  preCall : Option (ProcState → ProcState)

/-- An Error Policy (checkcall.hpp): handleError may read ambient state
(ErrnoErrorPolicy reads errno); the built-in policies always throw, a custom
one could return normally, which Except.ok models. -/
structure ErrorPolicy (Rv : Type) where
  handleError : ProcState → Rv → Except CppError Unit

/-- checkcall.hpp: ReportReturnValueErrorPolicy throws a runtime_error whose
message formats the failing return value with "Return value indicated error: %d". -/
def ReportReturnValueErrorPolicy : ErrorPolicy Int :=
  ⟨fun _ rv => Except.error (CppError.runtimeError
      ("Return value indicated error: " ++ toString rv))⟩

/-- checkcall.hpp: ErrnoErrorPolicy throws runtime_error(strerror(errno)). -/
def ErrnoErrorPolicy : ErrorPolicy Int :=
  ⟨fun s _ => Except.error (CppError.runtimeError (strerror s.errno))⟩

/-- checkcall.hpp: ErrorCodeErrorPolicy throws runtime_error(strerror(-rv)). -/
def ErrorCodeErrorPolicy : ErrorPolicy Int :=
  ⟨fun _ rv => Except.error (CppError.runtimeError (strerror (-rv)))⟩

/-- checkcall.hpp: DefaultErrorPolicy is ReportReturnValueErrorPolicy. -/
def DefaultErrorPolicy : ErrorPolicy Int := ReportReturnValueErrorPolicy

/-- A custom Error Policy whose handleError returns normally instead of
throwing; the library accepts such a policy, and CALL_CHECKED then falls
through to its ordinary return. -/
def SwallowingErrorPolicy : ErrorPolicy Int :=
  ⟨fun _ _ => Except.ok ()⟩

/-- checkcall.hpp: IsZeroReturnCheckPolicy, rv == 0; no preCall member. -/
def IsZeroReturnCheckPolicy : ReturnCheckPolicy Int :=
  ⟨fun _ rv => rv == 0, none⟩

/-- checkcall.hpp: IsNotNegativeReturnCheckPolicy, rv >= 0; no preCall member. -/
def IsNotNegativeReturnCheckPolicy : ReturnCheckPolicy Int :=
  ⟨fun _ rv => 0 ≤ rv, none⟩

/-- checkcall.hpp: IsNotZeroReturnCheckPolicy, rv != 0; no preCall member. -/
def IsNotZeroReturnCheckPolicy : ReturnCheckPolicy Int :=
  ⟨fun _ rv => rv != 0, none⟩

/-- checkcall.hpp: IsNotNullptrReturnCheckPolicy, nullptr != rv; a pointer is
modelled as an Option, none being nullptr; no preCall member. -/
def IsNotNullptrReturnCheckPolicy (P : Type) : ReturnCheckPolicy (Option P) :=
  ⟨fun _ rv => rv.isSome, none⟩

/-- checkcall.hpp: IsErrnoZeroReturnCheckPolicy ignores the return value and
tests errno == 0; its preCall hook resets errno to 0. -/
def IsErrnoZeroReturnCheckPolicy : ReturnCheckPolicy Int :=
  ⟨fun s _ => s.errno == 0, some (fun s => { s with errno := 0 })⟩

/-- checkcall.hpp: DefaultReturnCheckPolicy is IsZeroReturnCheckPolicy. -/
def DefaultReturnCheckPolicy : ReturnCheckPolicy Int := IsZeroReturnCheckPolicy

/-- CallIf + HasPreCall (checkcall.hpp, _auxiliary): run R::preCall when the
policy declares one, else do nothing. -/
def applyPreCall (R : ReturnCheckPolicy Rv) (s : ProcState) : ProcState :=
  match R.preCall with
  | some f => f s
  | none => s

/-- The trace the CallIf step contributes: one preCallRun event when the
policy has a preCall member. -/
def preCallTrace (R : ReturnCheckPolicy Rv) : List (Event Rv) :=
  if R.preCall.isSome then [Event.preCallRun] else []

/-- Outcome of one checked call: the value returned to the caller or the
exception that propagates, the resulting process state, and the event trace. -/
structure CallResult (Rv : Type) where
  result : Except CppError Rv
  state : ProcState
  trace : List (Event Rv)
  deriving Repr

/-- checkcall.hpp lines 142-149: run the policy's preCall hook if any, invoke
the callable on the forwarded arguments, test returnValueIsOk on the returned
value; on failure invoke E::handleError with it (if that throws, the exception
propagates; if it returns, the return value is returned as in the success
case). -/
def CALL_CHECKED (R : ReturnCheckPolicy Rv) (E : ErrorPolicy Rv)
    (callable : Args → ProcState → Rv × ProcState) (args : Args)
    (s : ProcState) : CallResult Rv :=
  let s1 := applyPreCall R s
  let r := callable args s1
  if R.returnValueIsOk r.2 r.1 then
    ⟨Except.ok r.1, r.2, preCallTrace R ++ [Event.callableRun]⟩
  else
    match E.handleError r.2 r.1 with
    | Except.ok _ =>
        ⟨Except.ok r.1, r.2,
          preCallTrace R ++ [Event.callableRun, Event.handlerRun r.1]⟩
    | Except.error e =>
        ⟨Except.error e, r.2,
          preCallTrace R ++ [Event.callableRun, Event.handlerRun r.1]⟩

/-- checkcall.hpp: CallGuard binds a functor and the two policies once. -/
structure CallGuard (Args Rv : Type) where
  functor : Args → ProcState → Rv × ProcState
  returnCheckPolicy : ReturnCheckPolicy Rv
  errorPolicy : ErrorPolicy Rv

/-- checkcall.hpp lines 168-171: CallGuard::operator() forwards to
CALL_CHECKED with the stored functor and the bound policies. -/
def CallGuard.call (g : CallGuard Args Rv) (args : Args) (s : ProcState) :
    CallResult Rv :=
  CALL_CHECKED g.returnCheckPolicy g.errorPolicy g.functor args s

/-- Repeated invocations through the same CallGuard, threading process state;
yields the outcome of each invocation in order. -/
def CallGuard.callMany (g : CallGuard Args Rv) (s : ProcState) :
    List Args → List (CallResult Rv)
  | [] => []
  | a :: rest =>
    let r := g.call a s
    r :: g.callMany r.state rest

/-- checkcall.hpp: CallCheckContext names a policy pair. -/
structure CallCheckContext (Rv : Type) where
  returnCheckPolicy : ReturnCheckPolicy Rv
  errorPolicy : ErrorPolicy Rv

/-- checkcall.hpp lines 181-185: CallCheckContext::CALL_CHECKED forwards to
cwrap::CALL_CHECKED with the bundled policies. -/
def CallCheckContext.checkedCall (c : CallCheckContext Rv)
    (callable : Args → ProcState → Rv × ProcState) (args : Args)
    (s : ProcState) : CallResult Rv :=
  CALL_CHECKED c.returnCheckPolicy c.errorPolicy callable args s

namespace error

/-- checkcall.h (namespace cwrap::error): the legacy CallGuard, likewise
binding a functor and the two policies. -/
structure CallGuard (Args Rv : Type) where
  functor : Args → ProcState → Rv × ProcState
  returnCheckPolicy : ReturnCheckPolicy Rv
  errorPolicy : ErrorPolicy Rv

/-- checkcall.h lines 96-104: the legacy CallGuard::operator() invokes the
functor, tests returnValueIsOk and on failure calls handleError; it never runs
a pre-call hook (there is no CallIf step in this header). -/
def CallGuard.call (g : CallGuard Args Rv) (args : Args) (s : ProcState) :
    CallResult Rv :=
  let r := g.functor args s
  if g.returnCheckPolicy.returnValueIsOk r.2 r.1 then
    ⟨Except.ok r.1, r.2, [Event.callableRun]⟩
  else
    match g.errorPolicy.handleError r.2 r.1 with
    | Except.ok _ =>
        ⟨Except.ok r.1, r.2, [Event.callableRun, Event.handlerRun r.1]⟩
    | Except.error e =>
        ⟨Except.error e, r.2, [Event.callableRun, Event.handlerRun r.1]⟩

end error

/-- Modelled from the spec: the guard header itself is not among the sources
(only guard_test.cpp is), so the cleanup action is modelled from section 3 of
the spec.  A FreePolicy value is either the default-constructed empty callable
(an empty std::function) or a bound callable, identified by a tag so that
traces can say which action ran. -/
inductive FreePolicy (T : Type) where
  | emptyDefault
  | bound (tag : Nat)
  deriving DecidableEq, Repr

/-- Modelled from the spec: invoking a cleanup action.  An empty default
action raises the invalid-invocation failure std::bad_function_call rather
than silently doing nothing; a bound action performs its release logic and
returns. -/
def FreePolicy.invoke : FreePolicy T → T → Except CppError Unit
  | .emptyDefault, _ => Except.error CppError.badFunctionCall
  | .bound _, _ => Except.ok ()

/-- Observable actions of a guard's lifetime: a cleanup action invoked on a
value, or a new binding taking effect. -/
inductive GuardEvent (T : Type) where
  | cleanupRun (d : FreePolicy T) (v : T)
  | bindingSet (v : T)
  deriving DecidableEq, Repr

/-- True exactly on a cleanup-invocation event. -/
def GuardEvent.isCleanupRun : GuardEvent T → Bool
  | .cleanupRun _ _ => true
  | _ => false

/-- Modelled from the spec: a guard owns a guarded value and a cleanup action;
movedFrom records whether ownership was transferred away, making the guard
inert. -/
structure Guard (T : Type) where
  freePolicy : FreePolicy T
  value : T
  movedFrom : Bool
  deriving DecidableEq, Repr

/-- Modelled from the spec: constructing a guard from a cleanup action and an
initial guarded value binds both. -/
def Guard.make (d : FreePolicy T) (v : T) : Guard T :=
  ⟨d, v, false⟩

/-- Modelled from the spec: default construction binds the empty default
cleanup action and a default-constructed guarded value v. -/
def Guard.defaultConstructed (v : T) : Guard T :=
  ⟨FreePolicy.emptyDefault, v, false⟩

/-- Modelled from the spec: destruction invokes the cleanup action on the
guarded value exactly once, unless the guard was moved-from, in which case it
is a no-op; the trace records any invocation. -/
def Guard.destroy (g : Guard T) : Except CppError Unit × List (GuardEvent T) :=
  if g.movedFrom then (Except.ok (), [])
  else (g.freePolicy.invoke g.value, [GuardEvent.cleanupRun g.freePolicy g.value])

/-- Modelled from the spec: move construction transfers ownership of the
cleanup action and the guarded value to the new guard (first component) and
leaves the source (second component) in the inert moved-from state. -/
def Guard.moveConstruct (g : Guard T) : Guard T × Guard T :=
  (⟨g.freePolicy, g.value, g.movedFrom⟩, ⟨g.freePolicy, g.value, true⟩)

/-- The guard obtained after a chain of n successive move constructions. -/
def Guard.moveChain (g : Guard T) : Nat → Guard T
  | 0 => g
  | n + 1 => (Guard.moveChain g n).moveConstruct.1

/-- Outcome of a move assignment: the result of destroying the target's old
binding, the events (old cleanup, then new binding), the new target, and the
now-inert source. -/
structure MoveAssignResult (T : Type) where
  result : Except CppError Unit
  events : List (GuardEvent T)
  target : Guard T
  source : Guard T
  deriving Repr

/-- Modelled from the spec: move assignment destroys the target's current
binding and its cleanup obligation first, then accepts the source's binding;
the source is left inert. -/
def Guard.moveAssign (target source : Guard T) : MoveAssignResult T :=
  let d := target.destroy
  ⟨d.1, d.2 ++ [GuardEvent.bindingSet source.value],
    ⟨source.freePolicy, source.value, source.movedFrom⟩,
    ⟨source.freePolicy, source.value, true⟩⟩

/-- Modelled from the spec: the static exception specification of a cleanup
action class, as the test's static assertions enumerate them: the default
empty-checked action (may raise when empty), a callable declared noexcept, and
a callable without a noexcept declaration. -/
inductive DeleterClass where
  | defaultFreePolicy
  | noexceptCallable
  | throwingCallable
  deriving DecidableEq, Repr

/-- Whether invoking a cleanup action of this class is declared non-raising. -/
def DeleterClass.invokeNoexcept : DeleterClass → Bool
  | .defaultFreePolicy => false
  | .noexceptCallable => true
  | .throwingCallable => false

/-- Modelled from the spec: the guard destructor is declared noexcept exactly
when the cleanup action's invocation is declared noexcept. -/
def Guard.dtorNoexcept (c : DeleterClass) : Bool :=
  c.invokeNoexcept

/-- A move chain never changes the binding carried by its final guard. -/
theorem Guard.moveChain_eq {T : Type} (g : Guard T) (n : Nat) :
    g.moveChain n = g := by
  induction n with
  | zero => rfl
  | succ n ih => simp [Guard.moveChain, Guard.moveConstruct, ih]

/-- The source of any move construction destroys as a no-op. -/
theorem Guard.moveConstruct_source_destroy {T : Type} (g : Guard T) :
    g.moveConstruct.2.destroy = (Except.ok (), []) := by
  simp [Guard.moveConstruct, Guard.destroy]

/-- C1: a guard constructed with a cleanup action d over a value v and then
destroyed after any number n of move constructions (n = 0 being destruction of
the original guard) fires the cleanup action d exactly once, on the guarded
value v; while the source guard left behind by any move construction destroys
without invoking any cleanup action, so every moved-from link of a move chain
is inert. -/
theorem C1_cleanup_exactly_once_and_moved_from_inert {T : Type}
    (d : FreePolicy T) (v : T) (n : Nat) :
    ((Guard.make d v).moveChain n).destroy
        = (d.invoke v, [GuardEvent.cleanupRun d v])
    ∧ ∀ g : Guard T, g.moveConstruct.2.destroy = (Except.ok (), []) := by
  constructor
  · rw [Guard.moveChain_eq]
    simp [Guard.make, Guard.destroy]
  · intro g
    exact Guard.moveConstruct_source_destroy g

/-- C4: destroying a guard that was default-constructed (empty cleanup action,
default-constructed value) raises std::bad_function_call instead of returning
normally, and the trace shows the invocation attempt rather than a silent
no-op. -/
theorem C4_default_cleanup_destruction_raises {T : Type} (v : T) :
    (Guard.defaultConstructed v).destroy.1
        = Except.error CppError.badFunctionCall
    ∧ (Guard.defaultConstructed v).destroy.2
        = [GuardEvent.cleanupRun FreePolicy.emptyDefault v] := by
  constructor <;> rfl

/-- C7: move-assigning a guard bound to (d2, v2) over a guard bound to (d1, v1)
invokes the old cleanup action d1 on the old value v1 exactly once, before the
new binding takes effect, and afterwards the target holds the new binding
while the assigned-from source is inert. -/
theorem C7_move_assign_releases_previous_binding {T : Type}
    (d1 d2 : FreePolicy T) (v1 v2 : T) :
    (Guard.moveAssign (Guard.make d1 v1) (Guard.make d2 v2)).events
        = [GuardEvent.cleanupRun d1 v1, GuardEvent.bindingSet v2]
    ∧ (Guard.moveAssign (Guard.make d1 v1) (Guard.make d2 v2)).target
        = Guard.make d2 v2
    ∧ (Guard.moveAssign (Guard.make d1 v1) (Guard.make d2 v2)).source.movedFrom
        = true := by
  refine ⟨?_, ?_, ?_⟩ <;> rfl

/-- C8: the guard destructor is declared noexcept exactly when the cleanup
action class's invocation is declared noexcept; in particular for the default
empty-checked action the destructor is not noexcept, and indeed that action
raises when invoked empty. -/
theorem C8_dtor_noexcept_iff_deleter_noexcept :
    (∀ c : DeleterClass, Guard.dtorNoexcept c = c.invokeNoexcept)
    ∧ Guard.dtorNoexcept DeleterClass.defaultFreePolicy = false
    ∧ ∀ (T : Type) (v : T),
        (FreePolicy.emptyDefault : FreePolicy T).invoke v
          = Except.error CppError.badFunctionCall := by
  refine ⟨fun c => rfl, rfl, fun T v => rfl⟩

/-- The CallIf step contributes no handler event. -/
theorem preCallTrace_filter_handlerRun {Rv : Type} (R : ReturnCheckPolicy Rv) :
    (preCallTrace R).filter Event.isHandlerRun = [] := by
  unfold preCallTrace
  split <;> rfl

/-- C2: when the return-check predicate rejects the value the callable
returned, CALL_CHECKED invokes the error policy's handleError exactly once,
with that failing return value; and since the handler raises, the checked
call propagates an exception instead of returning normally. -/
theorem C2_failing_call_invokes_raising_handler_once {Args Rv : Type}
    (R : ReturnCheckPolicy Rv) (E : ErrorPolicy Rv)
    (callable : Args → ProcState → Rv × ProcState) (args : Args)
    (s s2 : ProcState) (rv : Rv)
    (hcall : callable args (applyPreCall R s) = (rv, s2))
    (hfail : R.returnValueIsOk s2 rv = false)
    (hraise : ∃ e, E.handleError s2 rv = Except.error e) :
    (CALL_CHECKED R E callable args s).trace.filter Event.isHandlerRun
        = [Event.handlerRun rv]
    ∧ ∃ e, (CALL_CHECKED R E callable args s).result = Except.error e := by
  obtain ⟨e, he⟩ := hraise
  refine ⟨?_, ?_⟩ <;>
    simp [CALL_CHECKED, hcall, hfail, he, List.filter_append,
      preCallTrace_filter_handlerRun, Event.isHandlerRun]

/-- Witness for C2: the is-zero policy with the reporting error policy, on a
callable returning -1. -/
theorem C2_witness :
    (CALL_CHECKED IsZeroReturnCheckPolicy ReportReturnValueErrorPolicy
        (fun (_ : Unit) s => ((-1 : Int), s)) () ⟨0⟩).trace.filter
        Event.isHandlerRun = [Event.handlerRun (-1)]
    ∧ ∃ e, (CALL_CHECKED IsZeroReturnCheckPolicy ReportReturnValueErrorPolicy
        (fun (_ : Unit) s => ((-1 : Int), s)) () ⟨0⟩).result
        = Except.error e :=
  C2_failing_call_invokes_raising_handler_once IsZeroReturnCheckPolicy
    ReportReturnValueErrorPolicy (fun _ s => (-1, s)) () ⟨0⟩ ⟨0⟩ (-1)
    rfl (by decide) ⟨_, rfl⟩

/-- C3: when the return-check predicate accepts the value the callable
returned, CALL_CHECKED returns that value unchanged and the error policy's
handleError is never invoked. -/
theorem C3_successful_call_passes_value_through {Args Rv : Type}
    (R : ReturnCheckPolicy Rv) (E : ErrorPolicy Rv)
    (callable : Args → ProcState → Rv × ProcState) (args : Args)
    (s s2 : ProcState) (rv : Rv)
    (hcall : callable args (applyPreCall R s) = (rv, s2))
    (hok : R.returnValueIsOk s2 rv = true) :
    (CALL_CHECKED R E callable args s).result = Except.ok rv
    ∧ (CALL_CHECKED R E callable args s).trace.filter Event.isHandlerRun
        = [] := by
  refine ⟨?_, ?_⟩ <;>
    simp [CALL_CHECKED, hcall, hok, List.filter_append,
      preCallTrace_filter_handlerRun, Event.isHandlerRun]

/-- Witness for C3: the is-zero policy on a callable returning 0. -/
theorem C3_witness :
    (CALL_CHECKED IsZeroReturnCheckPolicy ReportReturnValueErrorPolicy
        (fun (_ : Unit) s => ((0 : Int), s)) () ⟨0⟩).result = Except.ok 0
    ∧ (CALL_CHECKED IsZeroReturnCheckPolicy ReportReturnValueErrorPolicy
        (fun (_ : Unit) s => ((0 : Int), s)) () ⟨0⟩).trace.filter
        Event.isHandlerRun = [] :=
  C3_successful_call_passes_value_through IsZeroReturnCheckPolicy
    ReportReturnValueErrorPolicy (fun _ s => (0, s)) () ⟨0⟩ ⟨0⟩ 0
    rfl (by decide)

/-- C10: if a custom error policy's handleError returns normally on the
failing value, CALL_CHECKED returns that failing value to the caller exactly
as it would a successful one; the library does not enforce non-return of the
handler. -/
theorem C10_returning_handler_passes_failing_value {Args Rv : Type}
    (R : ReturnCheckPolicy Rv) (E : ErrorPolicy Rv)
    (callable : Args → ProcState → Rv × ProcState) (args : Args)
    (s s2 : ProcState) (rv : Rv)
    (hcall : callable args (applyPreCall R s) = (rv, s2))
    (hfail : R.returnValueIsOk s2 rv = false)
    (hret : E.handleError s2 rv = Except.ok ()) :
    (CALL_CHECKED R E callable args s).result = Except.ok rv := by
  simp [CALL_CHECKED, hcall, hfail, hret]

/-- Witness for C10: the swallowing error policy on a callable returning -1
under the is-zero policy. -/
theorem C10_witness :
    (CALL_CHECKED IsZeroReturnCheckPolicy SwallowingErrorPolicy
        (fun (_ : Unit) s => ((-1 : Int), s)) () ⟨0⟩).result
      = Except.ok (-1) :=
  C10_returning_handler_passes_failing_value IsZeroReturnCheckPolicy
    SwallowingErrorPolicy (fun _ s => (-1, s)) () ⟨0⟩ ⟨0⟩ (-1)
    rfl (by decide) rfl

/-- C6: the built-in predicates have the listed fixed semantics -- is-zero
succeeds iff the value is 0, is-non-zero iff it differs from 0,
is-non-negative iff it is at least 0, is-not-null iff the pointer is not
null -- and concretely, a callable returning 0 under the is-zero policy
returns 0 to the caller without raising, while the same callable returning -1
raises with a diagnostic embedding -1. -/
theorem C6_builtin_predicate_semantics :
    (∀ (s : ProcState) (rv : Int),
        IsZeroReturnCheckPolicy.returnValueIsOk s rv = true ↔ rv = 0)
    ∧ (∀ (s : ProcState) (rv : Int),
        IsNotZeroReturnCheckPolicy.returnValueIsOk s rv = true ↔ rv ≠ 0)
    ∧ (∀ (s : ProcState) (rv : Int),
        IsNotNegativeReturnCheckPolicy.returnValueIsOk s rv = true ↔ 0 ≤ rv)
    ∧ (∀ (P : Type) (s : ProcState) (rv : Option P),
        (IsNotNullptrReturnCheckPolicy P).returnValueIsOk s rv = true
          ↔ rv ≠ none)
    ∧ (CALL_CHECKED IsZeroReturnCheckPolicy ReportReturnValueErrorPolicy
        (fun (_ : Unit) s => ((0 : Int), s)) () ⟨0⟩).result = Except.ok 0
    ∧ (CALL_CHECKED IsZeroReturnCheckPolicy ReportReturnValueErrorPolicy
        (fun (_ : Unit) s => ((-1 : Int), s)) () ⟨0⟩).result
      = Except.error
          (CppError.runtimeError "Return value indicated error: -1") := by
  refine ⟨?_, ?_, ?_, ?_, ?_, ?_⟩
  · intro s rv
    simp [IsZeroReturnCheckPolicy]
  · intro s rv
    simp [IsNotZeroReturnCheckPolicy]
  · intro s rv
    simp [IsNotNegativeReturnCheckPolicy]
  · intro P s rv
    simp [IsNotNullptrReturnCheckPolicy, Option.isSome_iff_ne_none]
  · rfl
  · rfl

/-- C9 counterexample: IsErrnoZeroReturnCheckPolicy is a built-in return-check
policy whose returnValueIsOk classifies the same return value 5 differently
under two ambient errno states, so not every built-in policy is a pure
predicate of the return value alone. -/
theorem C9_counterexample_errno_policy_reads_state :
    IsErrnoZeroReturnCheckPolicy.returnValueIsOk ⟨0⟩ 5 = true
    ∧ IsErrnoZeroReturnCheckPolicy.returnValueIsOk ⟨1⟩ 5 = false
    ∧ IsErrnoZeroReturnCheckPolicy.returnValueIsOk ⟨0⟩ 5
        ≠ IsErrnoZeroReturnCheckPolicy.returnValueIsOk ⟨1⟩ 5 := by
  refine ⟨rfl, rfl, by decide⟩

/-- C9 amended: every built-in return-check policy except
IsErrnoZeroReturnCheckPolicy is a pure predicate of the return value alone
(equal return values classify identically under any two ambient states);
IsErrnoZeroReturnCheckPolicy instead ignores the return value and depends
only on the ambient errno. -/
theorem C9_value_policies_pure_errno_policy_ambient :
    (∀ (s1 s2 : ProcState) (rv : Int),
        IsZeroReturnCheckPolicy.returnValueIsOk s1 rv
          = IsZeroReturnCheckPolicy.returnValueIsOk s2 rv)
    ∧ (∀ (s1 s2 : ProcState) (rv : Int),
        IsNotZeroReturnCheckPolicy.returnValueIsOk s1 rv
          = IsNotZeroReturnCheckPolicy.returnValueIsOk s2 rv)
    ∧ (∀ (s1 s2 : ProcState) (rv : Int),
        IsNotNegativeReturnCheckPolicy.returnValueIsOk s1 rv
          = IsNotNegativeReturnCheckPolicy.returnValueIsOk s2 rv)
    ∧ (∀ (P : Type) (s1 s2 : ProcState) (rv : Option P),
        (IsNotNullptrReturnCheckPolicy P).returnValueIsOk s1 rv
          = (IsNotNullptrReturnCheckPolicy P).returnValueIsOk s2 rv)
    ∧ (∀ (s : ProcState) (rv1 rv2 : Int),
        IsErrnoZeroReturnCheckPolicy.returnValueIsOk s rv1
          = IsErrnoZeroReturnCheckPolicy.returnValueIsOk s rv2) := by
  refine ⟨fun s1 s2 rv => rfl, fun s1 s2 rv => rfl, fun s1 s2 rv => rfl,
    fun P s1 s2 rv => rfl, fun s rv1 rv2 => rfl⟩

/-- The trace of one CALL_CHECKED invocation is the CallIf contribution, then
the callable invocation, then a tail free of pre-call events. -/
theorem callChecked_trace_shape {Args Rv : Type} (R : ReturnCheckPolicy Rv)
    (E : ErrorPolicy Rv) (callable : Args → ProcState → Rv × ProcState)
    (args : Args) (s : ProcState) :
    ∃ rest, (CALL_CHECKED R E callable args s).trace
        = preCallTrace R ++ Event.callableRun :: rest
      ∧ rest.countP Event.isPreCallRun = 0 := by
  unfold CALL_CHECKED
  dsimp only
  split
  · exact ⟨[], rfl, rfl⟩
  · split
    · exact ⟨[Event.handlerRun _], rfl, rfl⟩
    · exact ⟨[Event.handlerRun _], rfl, rfl⟩

/-- When the policy declares a pre-call hook, one CALL_CHECKED trace starts
with exactly one pre-call event, followed by the callable invocation. -/
theorem callChecked_hook_once {Args Rv : Type} (R : ReturnCheckPolicy Rv)
    (E : ErrorPolicy Rv) (callable : Args → ProcState → Rv × ProcState)
    (args : Args) (s : ProcState) (hpre : R.preCall.isSome = true) :
    ∃ rest, (CALL_CHECKED R E callable args s).trace
        = Event.preCallRun :: Event.callableRun :: rest
      ∧ (CALL_CHECKED R E callable args s).trace.countP Event.isPreCallRun
        = 1 := by
  obtain ⟨rest, htr, hzero⟩ := callChecked_trace_shape R E callable args s
  have hp : preCallTrace R = [Event.preCallRun] := by
    unfold preCallTrace
    simp [hpre]
  refine ⟨rest, ?_, ?_⟩
  · rw [htr, hp]
    rfl
  · rw [htr, hp]
    simp [List.countP_cons, Event.isPreCallRun, hzero]

/-- C5 counterexample: with IsErrnoZeroReturnCheckPolicy -- a policy that does
declare a pre-call hook -- a checked-call invocation made through the legacy
cwrap::error CallGuard of checkcall.h runs the hook zero times, not once: on
entry errno = 1, the hook is never run, so the call raises, while the
checkcall.hpp CALL_CHECKED on the same inputs resets errno and succeeds. -/
theorem C5_counterexample_legacy_call_guard_skips_hook :
    IsErrnoZeroReturnCheckPolicy.preCall.isSome = true
    ∧ (error.CallGuard.call
        ⟨fun (_ : Unit) s => ((0 : Int), s), IsErrnoZeroReturnCheckPolicy,
          ReportReturnValueErrorPolicy⟩ () ⟨1⟩).trace.countP
        Event.isPreCallRun = 0
    ∧ (∃ e, (error.CallGuard.call
        ⟨fun (_ : Unit) s => ((0 : Int), s), IsErrnoZeroReturnCheckPolicy,
          ReportReturnValueErrorPolicy⟩ () ⟨1⟩).result = Except.error e)
    ∧ (CALL_CHECKED IsErrnoZeroReturnCheckPolicy ReportReturnValueErrorPolicy
        (fun (_ : Unit) s => ((0 : Int), s)) () ⟨1⟩).result
      = Except.ok 0 := by
  exact ⟨rfl, rfl, ⟨_, rfl⟩, rfl⟩

/-- C5 amended: for every return-check policy that declares a pre-call hook,
every invocation through CALL_CHECKED of checkcall.hpp runs the hook exactly
once, before invoking the wrapped callable -- including every repeated
invocation made through the stateful CallGuard of checkcall.hpp, whose call
operator forwards to CALL_CHECKED; the legacy cwrap::error CallGuard of
checkcall.h never runs a pre-call hook. -/
theorem C5_hook_runs_once_before_callable {Args Rv : Type}
    (R : ReturnCheckPolicy Rv) (E : ErrorPolicy Rv)
    (hpre : R.preCall.isSome = true) :
    (∀ (callable : Args → ProcState → Rv × ProcState) (args : Args)
        (s : ProcState),
      ∃ rest, (CALL_CHECKED R E callable args s).trace
          = Event.preCallRun :: Event.callableRun :: rest
        ∧ (CALL_CHECKED R E callable args s).trace.countP Event.isPreCallRun
          = 1)
    ∧ (∀ (g : CallGuard Args Rv), g.returnCheckPolicy = R →
        ∀ (s : ProcState) (argsList : List Args) (r : CallResult Rv),
          r ∈ g.callMany s argsList →
          ∃ rest, r.trace = Event.preCallRun :: Event.callableRun :: rest
            ∧ r.trace.countP Event.isPreCallRun = 1) := by
  constructor
  · intro callable args s
    exact callChecked_hook_once R E callable args s hpre
  · intro g hR s argsList
    induction argsList generalizing s with
    | nil =>
      intro r hr
      simp [CallGuard.callMany] at hr
    | cons a rest ih =>
      intro r hr
      simp only [CallGuard.callMany, List.mem_cons] at hr
      rcases hr with hr | hr
      · subst hr
        exact callChecked_hook_once g.returnCheckPolicy g.errorPolicy
          g.functor a s (by rw [hR]; exact hpre)
      · exact ih _ _ hr

/-- Witness for C5 amended: the errno policy on a concrete invocation of a
run through a concrete CallGuard. -/
theorem C5_witness :
    ∃ rest, (CallGuard.call
          ⟨fun (_ : Unit) s => ((0 : Int), s), IsErrnoZeroReturnCheckPolicy,
            ReportReturnValueErrorPolicy⟩ () ⟨7⟩).trace
        = Event.preCallRun :: Event.callableRun :: rest
      ∧ (CallGuard.call
          ⟨fun (_ : Unit) s => ((0 : Int), s), IsErrnoZeroReturnCheckPolicy,
            ReportReturnValueErrorPolicy⟩ () ⟨7⟩).trace.countP
          Event.isPreCallRun = 1 :=
  (C5_hook_runs_once_before_callable IsErrnoZeroReturnCheckPolicy
    ReportReturnValueErrorPolicy rfl).2
    ⟨fun _ s => (0, s), IsErrnoZeroReturnCheckPolicy,
      ReportReturnValueErrorPolicy⟩ rfl ⟨7⟩ [(), ()] _
    (by unfold CallGuard.callMany; exact List.mem_cons_self _ _)

end CWrap
